import Mathlib

/-!
Verification of the call-site location descriptor core
(`src/main/cpp/locationinfo.cpp`): path shortening, signature parsing,
and the Java-compatible serialization of `LocationInfo`.

Strings are modelled as lists of characters.  The `std::string` search
operations used by the source are transcribed as executable functions:
`strFind` models `find(char)` (first occurrence), `rfindRec` models
`rfind(pat, pos)` (last occurrence starting at or before `pos`), and
`strRfind` models `rfind(pat)` with its default bound.
-/

abbrev Str := List Char

/-- Model of `std::string::find(char)`: index of the first occurrence of a
character, or `none`. -/
def strFind (c : Char) : Str → Option Nat
  | [] => none
  | x :: xs => if x = c then some 0 else (strFind c xs).map (· + 1)

/-- Model of `std::string::rfind(pat, pos)`: the largest start index `i ≤ pos`
at which `pat` occurs as a contiguous block, searching downward from `pos`. -/
def rfindRec (l pat : Str) : Nat → Option Nat
  | 0 => if pat.isPrefixOf (l.drop 0) then some 0 else none
  | b + 1 => if pat.isPrefixOf (l.drop (b + 1)) then some (b + 1) else rfindRec l pat b

/-- Model of `std::string::rfind(pat)` with its default bound (the whole
string is searched). -/
def strRfind (l pat : Str) : Option Nat := rfindRec l pat l.length

/-- Spec-side formulation: all start positions at which `pat` occurs in `s`,
in increasing order. -/
def positionsOf (pat s : Str) : List Nat :=
  (List.range (s.length + 1)).filter (fun i => pat.isPrefixOf (s.drop i))

/-- Spec-side formulation of "the last occurrence of `pat`". -/
def lastOcc (pat s : Str) : Option Nat := (positionsOf pat s).getLast?

/-- Spec-side formulation of "the last occurrence of `pat` at or before
position `bound`". -/
def lastOccLe (pat s : Str) (bound : Nat) : Option Nat :=
  ((List.range (bound + 1)).filter (fun i => pat.isPrefixOf (s.drop i))).getLast?

theorem rfindRec_eq_lastOccLe (l pat : Str) (b : Nat) :
    rfindRec l pat b = lastOccLe pat l b := by
  induction b with
  | zero =>
    rw [lastOccLe, List.range_succ, List.range_zero, List.nil_append]
    cases h : pat.isPrefixOf (l.drop 0) with
    | true =>
      rw [List.filter_cons_of_pos, List.filter_nil, List.getLast?_singleton,
        rfindRec, if_pos h]
      exact h
    | false =>
      rw [List.filter_cons_of_neg, List.filter_nil, List.getLast?_nil, rfindRec,
        if_neg (by rw [h]; exact Bool.false_ne_true)]
      rw [h]; exact Bool.false_ne_true
  | succ b ih =>
    rw [lastOccLe, List.range_succ, List.filter_append]
    cases h : pat.isPrefixOf (l.drop (b + 1)) with
    | true =>
      rw [List.filter_cons_of_pos, List.filter_nil, List.getLast?_concat,
        rfindRec, if_pos h]
      exact h
    | false =>
      rw [List.filter_cons_of_neg, List.filter_nil, List.append_nil, rfindRec,
        if_neg (by rw [h]; exact Bool.false_ne_true)]
      · exact ih
      · rw [h]; exact Bool.false_ne_true

theorem strRfind_eq_lastOcc (l pat : Str) : strRfind l pat = lastOcc pat l := by
  rw [strRfind, rfindRec_eq_lastOccLe]
  rfl

/-- The unavailable-data sentinel `LocationInfo::NA`, the string "?". -/
def NA : Str := "?".toList

/-- The unavailable-method sentinel `LocationInfo::NA_METHOD`, the string
"?::?". -/
def NA_METHOD : Str := "?::?".toList

/-- The two-character pattern "::" separating qualifiers in signatures. -/
def colons : Str := [':', ':']

/-- Transcription of `filterFileName`: the short file name is the part of
`fileName` after the last occurrence of the platform path separator
(`SHORT_FILENAME_SPLIT_CHAR`, a single character fixed at build time and
passed here as the parameter `sep`), or the whole name when the separator
does not occur. -/
def filterFileName (sep : Char) (fileName : Str) : Str :=
  match strRfind fileName [sep] with
  | some found => fileName.drop (found + 1)
  | none => fileName

/-- The descriptor state of `log4cxx::spi::LocationInfo`, with its four data
members in declaration order: `lineNumber`, `fileName`, `shortFileName`,
`methodName`.  Character-pointer members are modelled by their string
values. -/
structure LocationInfo where
  lineNumber : Int
  fileName : Str
  shortFileName : Str
  methodName : Str
deriving DecidableEq

/-- Transcription of the three-argument constructor: stores the triple and
derives `shortFileName` from `fileName` via `filterFileName` once, at
construction. -/
def LocationInfo.construct (sep : Char) (fileName1 methodName1 : Str)
    (lineNumber1 : Int) : LocationInfo :=
  ⟨lineNumber1, fileName1, filterFileName sep fileName1, methodName1⟩

/-- Transcription of the default constructor: line `-1`, file `NA`, short
file `NA`, method `NA_METHOD`. -/
def LocationInfo.defaultLoc : LocationInfo := ⟨-1, NA, NA, NA_METHOD⟩

/-- Transcription of `getLocationUnavailable`: the process-wide
default-constructed instance. -/
def LocationInfo.getLocationUnavailable : LocationInfo := LocationInfo.defaultLoc

/-- Transcription of `operator=`: assigns `fileName`, `methodName` and
`lineNumber` from `src`; the `shortFileName` member is not touched. -/
def LocationInfo.assign (target src : LocationInfo) : LocationInfo :=
  ⟨src.lineNumber, src.fileName, target.shortFileName, src.methodName⟩

/-- Transcription of `clear()`: resets `fileName`, `methodName` and
`lineNumber` to the sentinels; the `shortFileName` member is not touched. -/
def LocationInfo.clear (li : LocationInfo) : LocationInfo :=
  ⟨-1, NA, li.shortFileName, NA_METHOD⟩

/-- Transcription of `getFileName()`. -/
def LocationInfo.getFileName (li : LocationInfo) : Str := li.fileName

/-- Transcription of `getShortFileName()`: returns the cached member. -/
def LocationInfo.getShortFileName (li : LocationInfo) : Str := li.shortFileName

/-- Transcription of `getLineNumber()`. -/
def LocationInfo.getLineNumber (li : LocationInfo) : Int := li.lineNumber

/-- The truncation step shared by `getMethodName`, `getClassName`: erase from
the first open parenthesis to the end (`tmp.erase(parenPos)`), when one
occurs. -/
def truncAtParen (s : Str) : Str :=
  match strFind '(' s with
  | some parenPos => s.take parenPos
  | none => s

/-- Transcription of `getMethodName()`: truncate the raw signature at the
first open parenthesis; erase through the last "::" when present, else
through the first space when present. -/
def LocationInfo.getMethodName (li : LocationInfo) : Str :=
  match strRfind (truncAtParen li.methodName) colons with
  | some colonPos => (truncAtParen li.methodName).drop (colonPos + 2)
  | none =>
    match strFind ' ' (truncAtParen li.methodName) with
    | some spacePos => (truncAtParen li.methodName).drop (spacePos + 1)
    | none => truncAtParen li.methodName

/-- Transcription of `getClassName()`: truncate at the first open
parenthesis; when a last "::" exists, erase from it onward and then erase
through the last space (`find_last_of(' ')`) when one remains; when no "::"
exists, erase the whole string. -/
def LocationInfo.getClassName (li : LocationInfo) : Str :=
  match strRfind (truncAtParen li.methodName) colons with
  | some colonPos =>
    match strRfind ((truncAtParen li.methodName).take colonPos) [' '] with
    | some spacePos =>
      ((truncAtParen li.methodName).take colonPos).drop (spacePos + 1)
    | none => (truncAtParen li.methodName).take colonPos
  | none => []

/-- Decimal digits of a natural number, most significant first; the first
argument is recursion fuel (always called with fuel at least the number). -/
def natDigitsAux : Nat → Nat → Str
  | 0, _ => []
  | fuel + 1, n =>
    if n = 0 then [] else natDigitsAux fuel (n / 10) ++ [Char.ofNat (48 + n % 10)]

/-- Model of the pool's `itoa`: decimal rendering of an integer, with a
leading minus for negative values. -/
def itoa : Int → Str
  | Int.ofNat 0 => ['0']
  | Int.ofNat (n + 1) => natDigitsAux (n + 1) (n + 1)
  | Int.negSucc m => '-' :: natDigitsAux (m + 1) (m + 1)

/-- First stage of the `fullInfo` construction in `write`: when an open
parenthesis exists and the first space lies before it, erase through that
space (drops a leading return-type token). -/
def dropRetType (s : Str) : Str :=
  match strFind '(' s with
  | some openParen =>
    match strFind ' ' s with
    | some space => if space < openParen then s.drop (space + 1) else s
    | none => s
  | none => s

/-- Second stage of the `fullInfo` construction in `write`: when an open
parenthesis exists, replace the last "::" at or before it
(`rfind("::", openParen)`) by a dot, or insert a leading dot when no "::"
is found there. -/
def dotQualifier (s : Str) : Str :=
  match strFind '(' s with
  | some openParen =>
    match rfindRec s colons openParen with
    | some classSep => s.take classSep ++ ['.'] ++ s.drop (classSep + 2)
    | none => '.' :: s
  | none => s

/-- Transcription of the `fullInfo` payload text built by `write`: the two
signature stages followed by "(", the file name, ":", the decimal line
number, and ")". -/
def buildFullInfo (li : LocationInfo) : Str :=
  dotQualifier (dropRetType li.methodName) ++ ['('] ++ li.fileName ++ [':']
    ++ itoa li.lineNumber ++ [')']

/-- The foreign class name written by `writeProlog`. -/
def javaClassName : Str := "org.apache.log4j.spi.LocationInfo".toList

/-- The literal preamble byte table `prolog` from `write`, in source order. -/
def prolog : List Nat :=
  [0x72,
   0x00,
   0x21, 0x6F, 0x72, 0x67, 0x2E, 0x61, 0x70, 0x61, 0x63, 0x68, 0x65, 0x2E,
   0x6C, 0x6F, 0x67, 0x34, 0x6A, 0x2E, 0x73, 0x70, 0x69, 0x2E, 0x4C, 0x6F,
   0x63, 0x61, 0x74, 0x69, 0x6F, 0x6E, 0x49, 0x6E, 0x66, 0x6F, 0xED, 0x99,
   0xBB, 0xE1, 0x4A, 0x91, 0xA5, 0x7C, 0x02,
   0x00,
   0x01, 0x4C,
   0x00,
   0x08, 0x66, 0x75, 0x6C, 0x6C, 0x49, 0x6E, 0x66, 0x6F, 0x74,
   0x00,
   0x12, 0x4C, 0x6A, 0x61, 0x76, 0x61, 0x2F, 0x6C, 0x61, 0x6E, 0x67, 0x2F,
   0x53, 0x74, 0x72, 0x69, 0x6E, 0x67, 0x3B, 0x78, 0x70]

/-- The operations `write` may invoke on the stream-writer collaborator
(`ObjectOutputStream`), recorded abstractly in call order. -/
inductive WriteOp where
  | writeNull : WriteOp
  | writeProlog : Str → Nat → List Nat → WriteOp
  | writeUTFString : Str → WriteOp
deriving DecidableEq

/-- Transcription of `LocationInfo::write`.  In the source the guard
compares the `const char*` members against the exported `NA` and
`NA_METHOD` literals by pointer; here that comparison is modelled at the
level of string values.  The model agrees with the program whenever any of
the three texts differs from its sentinel: there both the value test and
the pointer test fail and the normal encoding path is taken.  On the null
branch the model idealizes pointer identity as value identity; whether a
descriptor whose members merely spell the sentinel texts at other addresses
passes the source's guard is an address-identity question outside this
embedding.  The normal path emits the constant prolog followed by the
`fullInfo` payload string. -/
def LocationInfo.write (li : LocationInfo) : List WriteOp :=
  if li.lineNumber = -1 ∧ li.fileName = NA ∧ li.methodName = NA_METHOD then
    [WriteOp.writeNull]
  else
    [WriteOp.writeProlog javaClassName 2 prolog,
     WriteOp.writeUTFString (buildFullInfo li)]

/-- ASCII byte values of a string, used to state what the preamble bytes
spell out. -/
def asciiBytes (s : Str) : List Nat := s.map Char.toNat

/-- The fixed 8-byte version identifier (serial version UID) inside the
preamble. -/
def serialVersionUID : List Nat := [0xED, 0x99, 0xBB, 0xE1, 0x4A, 0x91, 0xA5, 0x7C]

/-- Modelled from the spec wording of `methodName(raw)`: truncate at the
first open parenthesis; when a last "::" exists, the substring after it;
otherwise when a space exists, the substring after the first space;
otherwise the whole remaining string. -/
def specMethodName (raw : Str) : Str :=
  match lastOcc colons (truncAtParen raw) with
  | some colonPos => (truncAtParen raw).drop (colonPos + 2)
  | none =>
    match strFind ' ' (truncAtParen raw) with
    | some spacePos => (truncAtParen raw).drop (spacePos + 1)
    | none => truncAtParen raw

/-- Modelled from the spec wording of `className(raw)`: truncate at the
first open parenthesis; the empty string when no last "::" exists; otherwise
drop from the last "::" onward and return the substring after the last
remaining space, or the whole remainder when no space remains. -/
def specClassName (raw : Str) : Str :=
  match lastOcc colons (truncAtParen raw) with
  | some colonPos =>
    match lastOcc [' '] ((truncAtParen raw).take colonPos) with
    | some spacePos =>
      ((truncAtParen raw).take colonPos).drop (spacePos + 1)
    | none => (truncAtParen raw).take colonPos
  | none => []

/-- Modelled from the spec wording of the payload qualifier step: when an
open parenthesis is present, the last "::" at or before it is replaced by a
single dot, and a single leading dot is inserted when no "::" is found
there. -/
def specDotQualifier (s : Str) : Str :=
  match strFind '(' s with
  | some openParen =>
    match lastOccLe colons s openParen with
    | some classSep => s.take classSep ++ ['.'] ++ s.drop (classSep + 2)
    | none => '.' :: s
  | none => s

/-- Modelled from the spec wording of the serialized payload text: drop a
leading return-type token when a space precedes the open parenthesis, apply
the qualifier-dot step, then append "(", the file name, ":", the decimal
line number, and ")"; the argument list after the open parenthesis is never
removed. -/
def specFullInfo (methodName fileName : Str) (lineNumber : Int) : Str :=
  specDotQualifier (dropRetType methodName) ++ ['('] ++ fileName ++ [':']
    ++ itoa lineNumber ++ [')']

/-- Modelled from the spec wording of `shorten(path)`: the substring after
the last occurrence of the platform path separator when one exists, and the
input unchanged otherwise. -/
def specShorten (sep : Char) (path : Str) : Str :=
  match lastOcc [sep] path with
  | some i => path.drop (i + 1)
  | none => path

/-- C5: for every stored raw signature, `getMethodName` truncates at the
first open parenthesis, then takes the substring after the last "::" when
one exists, else after the first space when one exists, else the whole
remaining string; in particular the signatures "int myMethod(int)" and
"myMethod" both give "myMethod". -/
theorem getMethodName_follows_spec :
    (∀ li : LocationInfo, li.getMethodName = specMethodName li.methodName)
    ∧ (LocationInfo.construct '/' "f.cpp".toList "int myMethod(int)".toList
        1).getMethodName = "myMethod".toList
    ∧ (LocationInfo.construct '/' "f.cpp".toList "myMethod".toList
        1).getMethodName = "myMethod".toList := by
  refine ⟨fun li => ?_, by decide, by decide⟩
  unfold LocationInfo.getMethodName specMethodName
  simp only [strRfind_eq_lastOcc]

/-- C6: for every stored raw signature, `getClassName` truncates at the
first open parenthesis, gives the empty string when no "::" remains, and
otherwise drops from the last "::" onward and takes the substring after the
last remaining space when one exists; in particular
"MyNamespace::MyClass::myMethod(int, char*)" gives "MyNamespace::MyClass". -/
theorem getClassName_follows_spec :
    (∀ li : LocationInfo, li.getClassName = specClassName li.methodName)
    ∧ (LocationInfo.construct '/' "f.cpp".toList
        "MyNamespace::MyClass::myMethod(int, char*)".toList 1).getClassName
        = "MyNamespace::MyClass".toList := by
  refine ⟨fun li => ?_, by decide⟩
  unfold LocationInfo.getClassName specClassName
  simp only [strRfind_eq_lastOcc]

/-- C7: `filterFileName` returns the substring after the last occurrence of
the platform path separator when one exists and the input unchanged
otherwise (so "/a/b/c.cpp" gives "c.cpp" and "c.cpp" is unchanged), and the
constructed descriptor's `getShortFileName` equals `filterFileName` of the
file name, computed at construction. -/
theorem shorten_follows_spec :
    (∀ (sep : Char) (path : Str), filterFileName sep path = specShorten sep path)
    ∧ (∀ (sep : Char) (f m : Str) (ln : Int),
        (LocationInfo.construct sep f m ln).getShortFileName = filterFileName sep f)
    ∧ filterFileName '/' "/a/b/c.cpp".toList = "c.cpp".toList
    ∧ filterFileName '/' "c.cpp".toList = "c.cpp".toList := by
  refine ⟨fun sep path => ?_, fun _ _ _ _ => rfl, by decide, by decide⟩
  unfold filterFileName specShorten
  simp only [strRfind_eq_lastOcc]

/-- C1: for every descriptor outside the canonical all-sentinels state,
`write` emits the payload text built from the raw signature by exactly the
spec's steps: drop through the first space when a space precedes an open
parenthesis; then, when an open parenthesis is still present, replace the
last "::" at or before it by a dot or insert a leading dot when none is
found; then append "(", the file name, ":", the decimal line number, ")".
The argument list after the open parenthesis is never removed. -/
theorem write_builds_payload_by_spec_steps (li : LocationInfo)
    (h : ¬(li.lineNumber = -1 ∧ li.fileName = NA ∧ li.methodName = NA_METHOD)) :
    li.write = [WriteOp.writeProlog javaClassName 2 prolog,
      WriteOp.writeUTFString (specFullInfo li.methodName li.fileName li.lineNumber)] := by
  unfold LocationInfo.write
  rw [if_neg h]
  unfold buildFullInfo specFullInfo dotQualifier specDotQualifier
  simp only [rfindRec_eq_lastOccLe]

/-- Witness for C1 at the descriptor ("Foo.cpp", "Foo::bar(int)", 42). -/
theorem write_builds_payload_by_spec_steps_witness :
    ¬((LocationInfo.construct '/' "Foo.cpp".toList "Foo::bar(int)".toList
          42).lineNumber = -1
        ∧ (LocationInfo.construct '/' "Foo.cpp".toList "Foo::bar(int)".toList
            42).fileName = NA
        ∧ (LocationInfo.construct '/' "Foo.cpp".toList "Foo::bar(int)".toList
            42).methodName = NA_METHOD)
    ∧ (LocationInfo.construct '/' "Foo.cpp".toList "Foo::bar(int)".toList
        42).write
        = [WriteOp.writeProlog javaClassName 2 prolog,
           WriteOp.writeUTFString (specFullInfo "Foo::bar(int)".toList
             "Foo.cpp".toList 42)] :=
  ⟨by decide, write_builds_payload_by_spec_steps _ (by decide)⟩

/-- C2: every non-null serialization begins with the one fixed preamble,
identical for every descriptor: it spells the class name
"org.apache.log4j.spi.LocationInfo" length-prefixed with 33 bytes, the
fixed 8-byte version identifier, a field table of exactly one
reference-typed ('L') field named "fullInfo" with type descriptor string
"Ljava/lang/String;", and the type-table terminator bytes, all constant. -/
theorem write_preamble_constant_bytes (li : LocationInfo)
    (h : ¬(li.lineNumber = -1 ∧ li.fileName = NA ∧ li.methodName = NA_METHOD)) :
    li.write.head? = some (WriteOp.writeProlog javaClassName 2 prolog)
    ∧ prolog
        = [0x72] ++ [0x00, 0x21] ++ asciiBytes javaClassName ++ serialVersionUID
          ++ [0x02] ++ [0x00, 0x01] ++ [0x4C] ++ [0x00, 0x08]
          ++ asciiBytes "fullInfo".toList ++ [0x74] ++ [0x00, 0x12]
          ++ asciiBytes "Ljava/lang/String;".toList ++ [0x78, 0x70]
    ∧ (asciiBytes javaClassName).length = 33
    ∧ serialVersionUID.length = 8 := by
  refine ⟨?_, by decide, by decide, by decide⟩
  unfold LocationInfo.write
  rw [if_neg h]
  rfl

/-- Witness for C2 at the descriptor ("Foo.cpp", "Foo::bar(int)", 42). -/
theorem write_preamble_constant_bytes_witness :
    ¬((LocationInfo.construct '/' "Foo.cpp".toList "Foo::bar(int)".toList
          42).lineNumber = -1
        ∧ (LocationInfo.construct '/' "Foo.cpp".toList "Foo::bar(int)".toList
            42).fileName = NA
        ∧ (LocationInfo.construct '/' "Foo.cpp".toList "Foo::bar(int)".toList
            42).methodName = NA_METHOD)
    ∧ ((LocationInfo.construct '/' "Foo.cpp".toList "Foo::bar(int)".toList
        42).write.head? = some (WriteOp.writeProlog javaClassName 2 prolog)
      ∧ prolog
          = [0x72] ++ [0x00, 0x21] ++ asciiBytes javaClassName ++ serialVersionUID
            ++ [0x02] ++ [0x00, 0x01] ++ [0x4C] ++ [0x00, 0x08]
            ++ asciiBytes "fullInfo".toList ++ [0x74] ++ [0x00, 0x12]
            ++ asciiBytes "Ljava/lang/String;".toList ++ [0x78, 0x70]
      ∧ (asciiBytes javaClassName).length = 33
      ∧ serialVersionUID.length = 8) :=
  ⟨by decide, write_preamble_constant_bytes _ (by decide)⟩

/-- C4 counterexample: the payload for the descriptor ("Foo.cpp",
"Foo::bar(int)", 42) is not ".bar(Foo.cpp:42)"; the qualifier "Foo" is
rewritten to "Foo." rather than dropped, and the argument list stays. -/
theorem write_foo_bar_payload_not_dot_bar :
    ¬(buildFullInfo (LocationInfo.construct '/' "Foo.cpp".toList
        "Foo::bar(int)".toList 42) = ".bar(Foo.cpp:42)".toList) := by decide

/-- C4 as amended: serializing the descriptor ("Foo.cpp", "Foo::bar(int)",
42) produces payload text exactly "Foo.bar(int)(Foo.cpp:42)". -/
theorem write_foo_bar_payload :
    (LocationInfo.construct '/' "Foo.cpp".toList "Foo::bar(int)".toList
      42).write
      = [WriteOp.writeProlog javaClassName 2 prolog,
         WriteOp.writeUTFString "Foo.bar(int)(Foo.cpp:42)".toList] := by decide

/-- C8 counterexample: clearing the descriptor built from "/a/b/c.cpp"
does not yield the canonical default descriptor, because `clear` leaves the
derived short file name "c.cpp" in place while the default holds "?". -/
theorem clear_counterexample :
    ¬((LocationInfo.construct '/' "/a/b/c.cpp".toList "Foo::bar(int)".toList
        42).clear = LocationInfo.defaultLoc) := by decide

/-- C8 as amended: `clear()` makes `fileName`, `methodName` and `lineNumber`
equal to the canonical default's fields, while `shortFileName` keeps its
prior value, so the cleared descriptor equals the default exactly when its
short file name was already the sentinel. -/
theorem clear_resets_triple_to_default :
    ∀ li : LocationInfo,
      li.clear.fileName = LocationInfo.defaultLoc.fileName
      ∧ li.clear.methodName = LocationInfo.defaultLoc.methodName
      ∧ li.clear.lineNumber = LocationInfo.defaultLoc.lineNumber
      ∧ (li.clear = LocationInfo.defaultLoc ↔ li.shortFileName = NA) := by
  intro li
  refine ⟨rfl, rfl, rfl, ?_, ?_⟩
  · intro h
    exact congrArg LocationInfo.shortFileName h
  · intro h
    cases li
    simp only [LocationInfo.clear, LocationInfo.defaultLoc] at h ⊢
    rw [h]

/-- C9: assignment replaces exactly the `fileName`, `methodName` and
`lineNumber` fields of the target with the source's values, and leaves the
target's `shortFileName` unchanged — neither recomputed from the new file
name nor copied from the source. -/
theorem assign_replaces_triple_keeps_short :
    (∀ target src : LocationInfo,
      (target.assign src).fileName = src.fileName
      ∧ (target.assign src).methodName = src.methodName
      ∧ (target.assign src).lineNumber = src.lineNumber
      ∧ (target.assign src).shortFileName = target.shortFileName)
    ∧ ((LocationInfo.construct '/' "/a/b.cpp".toList "f()".toList 1).assign
        (LocationInfo.construct '/' "/x/y.cpp".toList "g()".toList 2)).shortFileName
        = "b.cpp".toList
    ∧ (LocationInfo.construct '/' "/x/y.cpp".toList "g()".toList 2).shortFileName
        = "y.cpp".toList :=
  ⟨fun _ _ => ⟨rfl, rfl, rfl, rfl⟩, by decide, by decide⟩

/-- C10: `clear()` mutates only `fileName`, `methodName` and `lineNumber`
(to "?", "?::?" and -1) and leaves `shortFileName` unchanged, so a
descriptor built from a real path and then cleared retains its previously
derived short file name. -/
theorem clear_keeps_short_file_name :
    (∀ li : LocationInfo,
      li.clear.fileName = NA
      ∧ li.clear.methodName = NA_METHOD
      ∧ li.clear.lineNumber = -1
      ∧ li.clear.shortFileName = li.shortFileName)
    ∧ (LocationInfo.construct '/' "/a/b/c.cpp".toList "Foo::bar(int)".toList
        42).clear.shortFileName = "c.cpp".toList :=
  ⟨fun _ => ⟨rfl, rfl, rfl, rfl⟩, by decide⟩
